import Mathlib

/-!
Verification of the session state machine and batch orchestration layer of the
`longstoryshort-yt-audit` repository, against a shallow embedding of
`src/youtubeaudit/core.py`, `src/youtubeaudit/batch.py` and
`src/youtubeaudit/state.py` (the `src/longstoryshort/core.py` copy of the
session code is line-for-line identical in every function modelled here).
-/

/-! ## Watch-interval computation (`core.py`, `watch` lines 467-487 and the
per-hop re-watch inside `Run`, lines 695-718).

The Python code reads the `duration` attribute of the playing media element:
`video_len = float(vid.get_attribute("duration") or 180)`, substituting 180
when the read raises, the attribute is falsy (empty string / None), or the
parsed value is zero.  The configured budget `max_duration` is an `int`
(absolute seconds) or a `float` (watch-percentage); `isinstance(max_duration,
float)` selects the interpretation. -/

/-- Outcome of reading the media element's `duration` attribute:
the read raised, the attribute was falsy (`""`/`None`), or it parsed to `d`.
Durations are modelled as rationals (Python floats carry no further structure
relevant here; NaN never arises from a parsed duration in the modelled paths). -/
inductive DurationRead where
  | err : DurationRead
  | empty : DurationRead
  | val : ℚ → DurationRead
deriving DecidableEq

/-- `watch` (core.py lines 467-477): `video_len = float(... or 180)`;
`if video_len == 0: video_len = 180`; `except: video_len = 180`. -/
def resolveDuration : DurationRead → ℚ
  | .err => 180
  | .empty => 180
  | .val d => if d = 0 then 180 else d

/-- `Run` (core.py lines 696-708): identical except the zero test is written
`if video_len in ["", None, 0, float("nan")]` — after the `float(...)`
conversion only the `0` element can compare equal (NaN is never equal to
itself), so it reduces to the same zero test. -/
def resolveDurationRun : DurationRead → ℚ
  | .err => 180
  | .empty => 180
  | .val d => if d = 0 then 180 else d

/-- The configured watch budget `max_duration`: a Python `float` is a
watch-fraction, a Python `int` is an absolute number of seconds
(`isinstance(max_duration, float)` picks the branch). -/
inductive Budget where
  | fraction : ℚ → Budget
  | seconds : ℤ → Budget
deriving DecidableEq

/-- Python `int(x)` on a float: truncation toward zero. -/
def pytrunc (q : ℚ) : ℤ := if 0 ≤ q then ⌊q⌋ else ⌈q⌉

/-- core.py lines 479-482 (and 710-713): `int(video_len * max_duration)` for a
float budget, `min(video_len, max_duration) - 1` for an int budget. -/
def waitTime (d : ℚ) : Budget → ℚ
  | .fraction q => (pytrunc (d * q) : ℚ)
  | .seconds n => min d (n : ℚ) - 1

/-- core.py line 487 (and 718): `time.sleep(max(wait_time, 0))`. -/
def sleepTime (d : ℚ) (b : Budget) : ℚ := max (waitTime d b) 0

/-- Whether `max_duration > 0` holds for the configured budget. -/
def Budget.pos : Budget → Prop
  | .fraction q => 0 < q
  | .seconds n => 0 < n

instance : DecidablePred Budget.pos := by
  intro b; cases b <;> simp [Budget.pos] <;> infer_instance

/-- core.py lines 696-715: the per-hop re-watch computes `waitTime` only when
`max_duration > 0`, otherwise `wait_time = 0`. -/
def runHopWait (d : ℚ) (b : Budget) : ℚ :=
  if b.pos then waitTime d b else 0

theorem pytrunc_eq_floor (q : ℚ) (h : 0 ≤ q) : pytrunc q = ⌊q⌋ := by
  simp [pytrunc, h]

/-- C2: Watch-interval computation.  For the Watch step and the per-hop
re-watch: with resolved duration `d ≥ 0` and budget `b > 0`, a fractional
budget gives `wait = ⌊d * b⌋`, an integral budget gives `wait = min d b - 1`,
the session sleeps `max wait 0`; an erroring / empty / zero duration read
resolves to 180; and the spec's concrete cases `d=200, b=0.5 → 100` and
`d=200, b=30 → 29` hold. -/
theorem watch_interval_correct (d q : ℚ) (n : ℤ) (hd : 0 ≤ d) (hq : 0 < q) (hn : 0 < n) :
    waitTime d (Budget.fraction q) = (⌊d * q⌋ : ℚ)
    ∧ waitTime d (Budget.seconds n) = min d (n : ℚ) - 1
    ∧ sleepTime d (Budget.fraction q) = max (waitTime d (Budget.fraction q)) 0
    ∧ sleepTime d (Budget.seconds n) = max (waitTime d (Budget.seconds n)) 0
    ∧ runHopWait d (Budget.fraction q) = waitTime d (Budget.fraction q)
    ∧ runHopWait d (Budget.seconds n) = waitTime d (Budget.seconds n)
    ∧ resolveDuration .err = 180 ∧ resolveDuration .empty = 180
    ∧ resolveDuration (.val 0) = 180
    ∧ resolveDurationRun .err = 180 ∧ resolveDurationRun .empty = 180
    ∧ resolveDurationRun (.val 0) = 180
    ∧ waitTime 200 (Budget.fraction (1/2)) = 100
    ∧ waitTime 200 (Budget.seconds 30) = 29 := by
  refine ⟨?_, rfl, rfl, rfl, ?_, ?_, rfl, rfl, by norm_num [resolveDuration],
    rfl, rfl, by norm_num [resolveDurationRun], ?_, by norm_num [waitTime]⟩
  · rw [waitTime, pytrunc_eq_floor _ (mul_nonneg hd hq.le)]
  · rw [runHopWait, if_pos (show (Budget.fraction q).pos from hq)]
  · rw [runHopWait, if_pos (show (Budget.seconds n).pos from hn)]
  · rw [waitTime, pytrunc_eq_floor _ (by norm_num)]
    norm_num

/-- Witness for `watch_interval_correct` at `d = 200`, `q = 1/2`, `n = 30`. -/
theorem watch_interval_correct_witness :
    waitTime 200 (Budget.fraction (1/2)) = (⌊(200 : ℚ) * (1/2)⌋ : ℚ)
    ∧ waitTime 200 (Budget.seconds 30) = min (200 : ℚ) ((30 : ℤ) : ℚ) - 1 := by
  have h := watch_interval_correct 200 (1/2) 30 (by norm_num) (by norm_num) (by norm_num)
  exact ⟨h.1, h.2.1⟩

/-! ## The collection loop (`core.py`, `Run` lines 548-726) and `Report`
(lines 728-747).

`Run` is a `while count > 0 and err_attempts > 0` loop over the live browser.
Each iteration consumes one bundle of driver responses, modelled as a
`HopInput`.  The loop body mutates only the session fields `path`,
`sidebars`, `preloads` and `restricted`, emits progress events, and either
continues, retries (URL-change timeout), or returns `-1`.  The end-of-hop
sleep (lines 695-718) suspends without touching session state; its interval
arithmetic is `resolveDurationRun` / `runHopWait` above. -/

/-- The player mode (`self.mode`), `"long"` or `"short"`. -/
inductive Mode where
  | long : Mode
  | short : Mode
deriving DecidableEq

/-- The session state owned by one `YouTubeAuditor` instance: the fields
reset by `InitDriver` (lines 171-179), set by `Train` (line 388) and mutated
by `Run`. -/
structure SessionState where
  seed_ids : List String
  path : List String
  sidebars : List (List String)
  preloads : List (List String)
  restricted : List (String × String)
  mode : Mode
  max_duration : Budget
deriving DecidableEq

/-- Outcome of the restriction-check block (lines 612-674) for one hop:
`absent` covers a missing banner, a banner whose `hidden` attribute is set,
and a detection wait that raised (swallowed by the outer `except` before any
state change); `present reason dismissFails` means the banner was visible and
the reason text resolved to `reason` (the fallback `"unknown(error)"` when
the inner read failed); `dismissFails` records whether the dismiss click then
raised — it is caught by the outer `except` after the record was appended, so
it never affects session state. -/
inductive RestrictionCheck where
  | absent : RestrictionCheck
  | present : String → Bool → RestrictionCheck
deriving DecidableEq

/-- Driver responses consumed by one iteration of the `Run` loop:
whether the next-video key press succeeded (lines 584-597), the new URL after
the URL-change wait (`none` = `TimeoutException`, lines 600-606), the
restriction-check outcome, and the outcomes of the extraction attempts made
inside `GetSidebar`/`GetPreloadRec` for this hop (`none` = that attempt
raised, `some links` = it returned `links`). -/
structure HopInput where
  nextOk : Bool
  newUrl : Option String
  restriction : RestrictionCheck
  recAttempts : List (Option (List String))
deriving DecidableEq

/-- `GetSidebar` (lines 493-518): up to `err_attempts` extraction attempts,
returning the first successful attempt's links; every attempt raising (or no
attempt succeeding) falls through to `return []`. -/
def GetSidebar (errAttempts : Nat) (attempts : List (Option (List String))) : List String :=
  match errAttempts, attempts with
  | 0, _ => []
  | _ + 1, [] => []
  | n + 1, a :: rest =>
    match a with
    | some links => links
    | none => GetSidebar n rest

/-- `GetPreloadRec` (lines 520-546): same retry shape as `GetSidebar`. -/
def GetPreloadRec (errAttempts : Nat) (attempts : List (Option (List String))) : List String :=
  match errAttempts, attempts with
  | 0, _ => []
  | _ + 1, [] => []
  | n + 1, a :: rest =>
    match a with
    | some links => links
    | none => GetPreloadRec n rest

/-- Python's `"sign in" in reason.lower()` (lines 631 / 664): substring
containment after ASCII lowercasing. -/
def containsSub (p : List Char) : List Char → Bool
  | [] => p.isEmpty
  | c :: rest => p.isPrefixOf (c :: rest) || containsSub p rest

def lowerChars (s : String) : List Char := s.toList.map Char.toLower

def hasSignInMarker (reason : String) : Bool :=
  containsSub "sign in".toList (lowerChars reason)

/-- Progress events emitted by `Run` via `_emit_progress`. -/
inductive Ev where
  | collectionStarted : Nat → Ev
  | collectionProgress : Nat → Nat → Ev
  | restrictedVideo : String → String → Ev
  | collectionFailed : String → Ev
  | collectionComplete : Nat → Ev
deriving DecidableEq

/-- The `while count > 0 and err_attempts > 0` loop of `Run` (lines 577-726),
one `HopInput` consumed per iteration.  Arguments: configured `err_attempts`
(used by the extraction helpers), `total` = `collect_video_num`, current
`count`, current `err_attempts` of the loop, remaining driver responses,
session state, events emitted so far.  Result `none` means the response trace
ran out while the loop would have continued (not a real execution); `some 0`
and `some (-1)` are `Run`'s return values. -/
def runLoop (errCfg total : Nat) (count err : Nat) (inputs : List HopInput)
    (s : SessionState) (evs : List Ev) : Option Int × SessionState × List Ev :=
  if count = 0 ∨ err = 0 then
    -- loop exit; lines 720-726
    if err = 0 then (some (-1), s, evs ++ [.collectionFailed "too_many_retries"])
    else (some 0, s, evs ++ [.collectionComplete (total - count)])
  else
    match inputs with
    | [] => (none, s, evs)
    | inp :: rest =>
      let evs1 := evs ++ [.collectionProgress (total - count + 1) total]
      if inp.nextOk = false then
        (some (-1), s, evs1 ++ [.collectionFailed "next_button_failed"])
      else
        match inp.newUrl with
        | none => runLoop errCfg total count (err - 1) rest s evs1
        | some url =>
          match inp.restriction with
          | .present reason _ =>
            let s1 : SessionState := { s with restricted := s.restricted ++ [(url, reason)] }
            let evs2 := evs1 ++ [.restrictedVideo url reason]
            if hasSignInMarker reason then (some (-1), s1, evs2)
            else
              let s2 : SessionState :=
                match s1.mode with
                | .short => { s1 with preloads := s1.preloads ++ [GetPreloadRec errCfg inp.recAttempts] }
                | .long => { s1 with sidebars := s1.sidebars ++ [GetSidebar errCfg inp.recAttempts] }
              runLoop errCfg total (count - 1) err rest { s2 with path := s2.path ++ [url] } evs2
          | .absent =>
            let s2 : SessionState :=
              match s.mode with
              | .short => { s with preloads := s.preloads ++ [GetPreloadRec errCfg inp.recAttempts] }
              | .long => { s with sidebars := s.sidebars ++ [GetSidebar errCfg inp.recAttempts] }
            runLoop errCfg total (count - 1) err rest { s2 with path := s2.path ++ [url] } evs1

/-- `Run` (lines 548-726): emits `collection_started`, then enters the loop
with `count = collect_video_num` and a fresh `err_attempts` copy. -/
def Run (errCfg : Nat) (collect_video_num : Nat) (inputs : List HopInput)
    (s : SessionState) : Option Int × SessionState × List Ev :=
  runLoop errCfg collect_video_num collect_video_num errCfg inputs s
    [.collectionStarted collect_video_num]

/-- The dictionary returned by `Report` (lines 728-747). -/
structure ReportD where
  training_ids : List String
  seed_id : Option String
  player_mode : Mode
  max_duration : Budget
  autoplay_rec : List String
  sidebar_rec : List (List String)
  preload_rec : List (List String)
  restricted : List (String × String)
deriving DecidableEq

/-- `Report` (lines 728-747): a function of the session state only. -/
def Report (s : SessionState) : ReportD :=
  { training_ids := if 1 < s.seed_ids.length then s.seed_ids.dropLast else []
    seed_id := s.seed_ids.getLast?
    player_mode := s.mode
    max_duration := s.max_duration
    autoplay_rec := s.path
    sidebar_rec := s.sidebars
    preload_rec := s.preloads
    restricted := s.restricted }

/-- Session state right after `InitDriver` reset the collections
(lines 171-179) and `Train` stored the seed ids (line 388). -/
def initSession (mode : Mode) (budget : Budget) (seeds : List String) : SessionState :=
  { seed_ids := seeds, path := [], sidebars := [], preloads := [],
    restricted := [], mode := mode, max_duration := budget }

theorem GetSidebar_all_fail (n : Nat) (attempts : List (Option (List String)))
    (h : ∀ a ∈ attempts, a = none) : GetSidebar n attempts = [] := by
  induction attempts generalizing n with
  | nil => cases n <;> rfl
  | cons a rest ih =>
    cases n with
    | zero => rfl
    | succ m =>
      have ha : a = none := h a (List.mem_cons_self a rest)
      rw [GetSidebar.eq_def, ha]
      exact ih m (fun x hx => h x (List.mem_cons_of_mem a hx))

theorem GetPreloadRec_all_fail (n : Nat) (attempts : List (Option (List String)))
    (h : ∀ a ∈ attempts, a = none) : GetPreloadRec n attempts = [] := by
  induction attempts generalizing n with
  | nil => cases n <;> rfl
  | cons a rest ih =>
    cases n with
    | zero => rfl
    | succ m =>
      have ha : a = none := h a (List.mem_cons_self a rest)
      rw [GetPreloadRec.eq_def, ha]
      exact ih m (fun x hx => h x (List.mem_cons_of_mem a hx))

/-- C3: a restriction reason containing "sign in" (case-insensitively)
appends the (address, reason) pair to the restricted log, emits the
restricted-video event, and makes the loop return `-1` at once: the final
state is the prior state with only `restricted` extended — in particular the
path receives no further appends. -/
theorem signin_restriction_terminates (errCfg total count err : Nat) (inp : HopInput)
    (rest : List HopInput) (s : SessionState) (evs : List Ev) (url reason : String)
    (df : Bool) (hc : count ≠ 0) (he : err ≠ 0) (hnext : inp.nextOk = true)
    (hurl : inp.newUrl = some url) (hres : inp.restriction = .present reason df)
    (hsign : hasSignInMarker reason = true) :
    runLoop errCfg total count err (inp :: rest) s evs =
      (some (-1),
        { s with restricted := s.restricted ++ [(url, reason)] },
        evs ++ [.collectionProgress (total - count + 1) total, .restrictedVideo url reason])
    ∧ (runLoop errCfg total count err (inp :: rest) s evs).2.1.path = s.path := by
  rw [runLoop]
  simp [hc, he, hnext, hurl, hres, hsign]

/-- Witness for `signin_restriction_terminates`: a concrete hop whose reason
is "Sign in to confirm your age" terminates a 3-hop run with `-1` and an
untouched path. -/
theorem signin_restriction_terminates_witness :
    runLoop 5 3 3 5
        [⟨true, some "https://u1", .present "Sign in to confirm your age" false, []⟩]
        (initSession .long (.seconds 30) ["s1"]) [] =
      (some (-1),
        { initSession .long (.seconds 30) ["s1"] with
            restricted := [("https://u1", "Sign in to confirm your age")] },
        [.collectionProgress 1 3, .restrictedVideo "https://u1" "Sign in to confirm your age"]) := by
  have h := signin_restriction_terminates 5 3 3 5
    ⟨true, some "https://u1", .present "Sign in to confirm your age" false, []⟩ []
    (initSession .long (.seconds 30) ["s1"]) [] "https://u1"
    "Sign in to confirm your age" false (by decide) (by decide) rfl rfl rfl (by decide)
  simpa [initSession] using h.1

/-- C7: a URL-change timeout decrements only the remaining-attempts budget
and restarts the hop: the iteration leaves the session state untouched and
the hop count unchanged; and whenever the attempts budget is exhausted
(`err = 0`) while hops remain, the loop returns `-1` as the retry-exhaustion
failure. -/
theorem url_timeout_retry (errCfg total count err : Nat) (inp : HopInput)
    (rest : List HopInput) (s : SessionState) (evs : List Ev)
    (hc : count ≠ 0) (he : err ≠ 0) (hnext : inp.nextOk = true)
    (hurl : inp.newUrl = none) :
    runLoop errCfg total count err (inp :: rest) s evs =
      runLoop errCfg total count (err - 1) rest s
        (evs ++ [.collectionProgress (total - count + 1) total])
    ∧ ∀ (inputs : List HopInput) (s1 : SessionState) (evs1 : List Ev),
        runLoop errCfg total count 0 inputs s1 evs1 =
          (some (-1), s1, evs1 ++ [.collectionFailed "too_many_retries"]) := by
  constructor
  · conv_lhs => rw [runLoop]
    simp [hc, he, hnext, hurl]
  · intro inputs s1 evs1
    rw [runLoop.eq_def]
    simp

/-- Witness for `url_timeout_retry`: one concrete timed-out hop with the last
attempt credit, then retry exhaustion. -/
theorem url_timeout_retry_witness :
    runLoop 5 3 3 1 [⟨true, none, .absent, []⟩]
        (initSession .long (.seconds 30) ["s1"]) [] =
      (some (-1), initSession .long (.seconds 30) ["s1"],
        [Ev.collectionProgress 1 3, Ev.collectionFailed "too_many_retries"]) := by
  have h := url_timeout_retry 5 3 3 1 ⟨true, none, .absent, []⟩ []
    (initSession .long (.seconds 30) ["s1"]) [] (by decide) (by decide) rfl rfl
  rw [h.1]
  have h2 := h.2 [] (initSession .long (.seconds 30) ["s1"]) [Ev.collectionProgress 1 3]
  simpa using h2


/-- C8: when every extraction attempt of a hop fails, `GetSidebar` and
`GetPreloadRec` return `[]`, the empty collection is appended to the
mode's batch list, and the hop still completes: the address is appended to
the path and one hop credit is consumed.  Stated for a hop with no
restriction banner; a dismissed banner differs only by the restricted-log
append made before the extraction. -/
theorem extraction_failure_hop_completes (errCfg total count err : Nat) (inp : HopInput)
    (rest : List HopInput) (s : SessionState) (evs : List Ev) (url : String)
    (hc : count ≠ 0) (he : err ≠ 0) (hnext : inp.nextOk = true)
    (hurl : inp.newUrl = some url) (hres : inp.restriction = .absent)
    (hfail : ∀ a ∈ inp.recAttempts, a = none) :
    GetSidebar errCfg inp.recAttempts = []
    ∧ GetPreloadRec errCfg inp.recAttempts = []
    ∧ (s.mode = .long →
        runLoop errCfg total count err (inp :: rest) s evs =
          runLoop errCfg total (count - 1) err rest
            { s with sidebars := s.sidebars ++ [[]], path := s.path ++ [url] }
            (evs ++ [.collectionProgress (total - count + 1) total]))
    ∧ (s.mode = .short →
        runLoop errCfg total count err (inp :: rest) s evs =
          runLoop errCfg total (count - 1) err rest
            { s with preloads := s.preloads ++ [[]], path := s.path ++ [url] }
            (evs ++ [.collectionProgress (total - count + 1) total])) := by
  have hs := GetSidebar_all_fail errCfg inp.recAttempts hfail
  have hp := GetPreloadRec_all_fail errCfg inp.recAttempts hfail
  refine ⟨hs, hp, ?_, ?_⟩
  · intro hmode
    conv_lhs => rw [runLoop]
    simp [hc, he, hnext, hurl, hres, hmode, hs]
  · intro hmode
    conv_lhs => rw [runLoop]
    simp [hc, he, hnext, hurl, hres, hmode, hp]

/-- Witness for `extraction_failure_hop_completes`: a single long-mode hop
whose five extraction attempts all fail still completes the run, with an
empty sidebar batch and the address on the path. -/
theorem extraction_failure_hop_completes_witness :
    runLoop 5 1 1 5 [⟨true, some "https://u1", .absent, [none, none, none, none, none]⟩]
        (initSession .long (.seconds 30) ["s1"]) [] =
      (some 0,
        { initSession .long (.seconds 30) ["s1"] with
            sidebars := [[]], path := ["https://u1"] },
        [Ev.collectionProgress 1 1, Ev.collectionComplete 1]) := by
  have h := extraction_failure_hop_completes 5 1 1 5
    ⟨true, some "https://u1", .absent, [none, none, none, none, none]⟩ []
    (initSession .long (.seconds 30) ["s1"]) [] "https://u1"
    (by decide) (by decide) rfl rfl rfl (by decide)
  rw [h.2.2.1 rfl]
  rw [runLoop.eq_def]
  simp [initSession]

theorem ite_gt_one_dropLast (l : List String) :
    (if 1 < l.length then l.dropLast else []) = l.dropLast := by
  match l with
  | [] => rfl
  | [x] => rfl
  | x :: y :: rest =>
    rw [if_pos]
    simp only [List.length_cons]
    omega

/-- Driver-response trace of a session that fails after 2 completed hops out
of 5 configured: two normal hops, then a next-button failure. -/
def failedRunInputs : List HopInput :=
  [⟨true, some "https://u1", .absent, [some ["r1"]]⟩,
   ⟨true, some "https://u2", .absent, [some ["r2"]]⟩,
   ⟨false, none, .absent, []⟩]

/-- The session state left behind by that failed 2-of-5 run. -/
def failedRunState : SessionState :=
  (Run 5 5 failedRunInputs (initSession .long (.seconds 30) ["a", "b", "c"])).2.1

/-- C6: `Report` is a pure read of the session state (it is a function
`SessionState → ReportD` in this embedding, mutating nothing): training ids
are all seed ids except the last, the seed id is the last seed id (`none`
when there are no seeds), and the four collections are returned as
accumulated.  On the concrete session that failed after 2 of 5 configured
hops, `Run` returned `-1` and the reported autoplay path has length
exactly 2. -/
theorem report_correct (s : SessionState) :
    (Report s).training_ids = s.seed_ids.dropLast
    ∧ (Report s).seed_id = s.seed_ids.getLast?
    ∧ (s.seed_ids = [] → (Report s).seed_id = none)
    ∧ (Report s).player_mode = s.mode
    ∧ (Report s).max_duration = s.max_duration
    ∧ (Report s).autoplay_rec = s.path
    ∧ (Report s).sidebar_rec = s.sidebars
    ∧ (Report s).preload_rec = s.preloads
    ∧ (Report s).restricted = s.restricted
    ∧ (Run 5 5 failedRunInputs (initSession .long (.seconds 30) ["a", "b", "c"])).1 = some (-1)
    ∧ (Report failedRunState).autoplay_rec.length = 2
    ∧ Report failedRunState =
        { training_ids := ["a", "b"], seed_id := some "c", player_mode := .long,
          max_duration := .seconds 30, autoplay_rec := ["https://u1", "https://u2"],
          sidebar_rec := [["r1"], ["r2"]], preload_rec := [],
          restricted := [] } := by
  refine ⟨ite_gt_one_dropLast s.seed_ids, rfl, ?_, rfl, rfl, rfl, rfl, rfl, rfl, ?_, ?_, ?_⟩
  · intro h
    simp [Report, h]
  · rfl
  · rfl
  · rfl

/-- Witness for `report_correct` at a concrete state with no seeds,
discharging the empty-seed implication. -/
theorem report_correct_witness :
    (Report (initSession .long (.seconds 30) [])).training_ids =
      (initSession .long (.seconds 30) []).seed_ids.dropLast
    ∧ (Report (initSession .long (.seconds 30) [])).seed_id = none := by
  have h := report_correct (initSession .long (.seconds 30) [])
  exact ⟨h.1, h.2.2.1 rfl⟩

/-! ## StatusTracker (`state.py`) with Python reference semantics.

`self.state` is a dict whose values under `"batch_progress"`,
`"current_tasks"`, `"health"` and `"data_collected"` are themselves dicts.
`get_state` returns `self.state.copy()` — a shallow copy.  To reason about
that, dicts are values in a small heap: a `PyVal.ref a` is a pointer to the
dict stored in cell `a`, and `dict.copy()` of the top-level dict copies the
key-to-value association (including the refs) without copying the cells.
File writes are not part of this in-memory model; `_write`'s in-memory
effect (re-timestamping, lines 109-115) is `writeMem`.  Timestamps and the
computed elapsed seconds come from the clock, so mutators take them as
oracle arguments.  A mutator returns `none` where the Python would raise
(`KeyError` / `TypeError` on a shape the code does not expect). -/

inductive PyVal where
  | str : String → PyVal
  | int : ℤ → PyVal
  | pynone : PyVal
  | ref : Nat → PyVal
deriving DecidableEq

abbrev PyDict := List (String × PyVal)

/-- Python `d[k]` as lookup (`none` = `KeyError`). -/
def dictGet (d : PyDict) (k : String) : Option PyVal :=
  match d with
  | [] => none
  | (k1, v) :: rest => if k1 = k then some v else dictGet rest k

/-- Python `d[k] = v`: overwrite in place, preserving insertion order;
append when the key is new. -/
def dictSet (d : PyDict) (k : String) (v : PyVal) : PyDict :=
  match d with
  | [] => [(k, v)]
  | (k1, v1) :: rest => if k1 = k then (k1, v) :: rest else (k1, v1) :: dictSet rest k v

structure Heap where
  cells : List PyDict
deriving DecidableEq

def Heap.get (h : Heap) (a : Nat) : Option PyDict := h.cells[a]?

def Heap.set (h : Heap) (a : Nat) (d : PyDict) : Heap := ⟨h.cells.set a d⟩

def Heap.alloc (h : Heap) (d : PyDict) : Heap × Nat := (⟨h.cells ++ [d]⟩, h.cells.length)

/-- The tracker: its heap of dict cells and the top-level dict bound to
`self.state`. -/
structure Tracker where
  heap : Heap
  top : PyDict
deriving DecidableEq

/-- `StatusTracker.__init__` (state.py lines 74-100): the four nested dicts
live in cells 0-3, the top-level dict holds refs to them. -/
def initTracker (experiment_id ts : String) : Tracker :=
  { heap := ⟨[
      [("total_tasks", .int 0), ("completed_tasks", .int 0),
       ("failed_tasks", .int 0), ("current_task_index", .int (-1))],
      [],
      [("successful_runs", .int 0), ("failed_runs", .int 0),
       ("retries", .int 0), ("restricted_videos", .int 0)],
      [("total_recommendations", .int 0), ("autoplay_paths", .int 0),
       ("sidebar_recs", .int 0), ("preload_recs", .int 0)]]⟩
    top := [("experiment_id", .str experiment_id), ("status", .str "pending"),
      ("started_at", .pynone), ("updated_at", .str ts), ("completed_at", .pynone),
      ("elapsed_seconds", .int 0), ("batch_progress", .ref 0),
      ("current_tasks", .ref 1), ("health", .ref 2), ("data_collected", .ref 3)] }

/-- Python truthiness for the values `started_at` can hold (`None` or a
timestamp string; container truthiness is not needed and a ref is treated as
truthy). -/
def pyTruthy : Option PyVal → Bool
  | some (.str s) => decide (s ≠ "")
  | some (.int n) => decide (n ≠ 0)
  | some .pynone => false
  | some (.ref _) => true
  | none => false

/-- In-memory effect of `_write` (lines 106-121): re-timestamp
`updated_at`, and refresh `elapsed_seconds` when `started_at` is truthy
(`el` is the clock-computed value).  The temp-file/rename part is modelled
separately by the lock-event traces below. -/
def writeMem (ts : String) (el : ℤ) (t : Tracker) : Tracker :=
  let top1 := dictSet t.top "updated_at" (.str ts)
  { t with top := if pyTruthy (dictGet top1 "started_at")
                  then dictSet top1 "elapsed_seconds" (.int el) else top1 }

/-- `increment_completed` (lines 219-223):
`self.state["batch_progress"]["completed_tasks"] += 1`, then `_write`. -/
def increment_completed (ts : String) (el : ℤ) (t : Tracker) : Option Tracker :=
  match dictGet t.top "batch_progress" with
  | some (.ref a) =>
    match t.heap.get a with
    | some cell =>
      match dictGet cell "completed_tasks" with
      | some (.int n) =>
        some (writeMem ts el
          { t with heap := t.heap.set a (dictSet cell "completed_tasks" (.int (n + 1))) })
      | _ => none
    | _ => none
  | _ => none

/-- `increment_failed` (lines 225-229). -/
def increment_failed (ts : String) (el : ℤ) (t : Tracker) : Option Tracker :=
  match dictGet t.top "batch_progress" with
  | some (.ref a) =>
    match t.heap.get a with
    | some cell =>
      match dictGet cell "failed_tasks" with
      | some (.int n) =>
        some (writeMem ts el
          { t with heap := t.heap.set a (dictSet cell "failed_tasks" (.int (n + 1))) })
      | _ => none
    | _ => none
  | _ => none

/-- `increment_health` (lines 231-244): `if metric in self.state["health"]`
guards the increment, so an unknown metric is a no-op (but still writes). -/
def increment_health (ts : String) (el : ℤ) (metric : String) (amount : ℤ)
    (t : Tracker) : Option Tracker :=
  match dictGet t.top "health" with
  | some (.ref a) =>
    match t.heap.get a with
    | some cell =>
      match dictGet cell metric with
      | some (.int n) =>
        some (writeMem ts el
          { t with heap := t.heap.set a (dictSet cell metric (.int (n + amount))) })
      | some _ => none
      | none => some (writeMem ts el t)
    | _ => none
  | _ => none

/-- `update_data_collected` (lines 246-258): fold the guarded `+=` over the
keyword arguments. -/
def update_data_collected_fold (cell : PyDict) (kwargs : List (String × ℤ)) :
    Option PyDict :=
  match kwargs with
  | [] => some cell
  | (k, v) :: rest =>
    match dictGet cell k with
    | some (.int n) => update_data_collected_fold (dictSet cell k (.int (n + v))) rest
    | some _ => none
    | none => update_data_collected_fold cell rest

def update_data_collected (ts : String) (el : ℤ) (kwargs : List (String × ℤ))
    (t : Tracker) : Option Tracker :=
  match dictGet t.top "data_collected" with
  | some (.ref a) =>
    match t.heap.get a with
    | some cell =>
      match update_data_collected_fold cell kwargs with
      | some cell1 => some (writeMem ts el { t with heap := t.heap.set a cell1 })
      | none => none
    | _ => none
  | _ => none

/-- `start` (lines 123-135): rebinds the top-level `status` and `started_at`
and mutates the nested `batch_progress` in place, then `_write`. -/
def start (tsStart ts : String) (el : ℤ) (total_tasks : ℤ) (t : Tracker) : Option Tracker :=
  match dictGet t.top "batch_progress" with
  | some (.ref a) =>
    match t.heap.get a with
    | some cell =>
      some (writeMem ts el
        { heap := t.heap.set a (dictSet cell "total_tasks" (.int total_tasks))
          top := dictSet (dictSet t.top "status" (.str "running"))
            "started_at" (.str tsStart) })
    | _ => none
  | _ => none

/-- Allocate one cell per serialized sub-task progress dict and build the
dict `{mode: ref}` (the comprehension on lines 172-177; the result of each
`progress.to_dict()` is taken as an opaque `PyDict`). -/
def allocModeDicts (h : Heap) (tasks : List (String × PyDict)) : Heap × PyDict :=
  match tasks with
  | [] => (h, [])
  | (mode, pd) :: rest =>
    let ha := h.alloc pd
    let hrest := allocModeDicts ha.1 rest
    (hrest.1, (mode, .ref ha.2) :: hrest.2)

/-- `update_current_task` (lines 158-178): set
`batch_progress["current_task_index"]`, then rebind `current_tasks` to the
fresh one-key dict `{task_id: {mode: progress.to_dict(), ...}}`, then
`_write`. -/
def update_current_task (ts : String) (el : ℤ) (task_index : ℤ) (task_id : String)
    (tasks : List (String × PyDict)) (t : Tracker) : Option Tracker :=
  match dictGet t.top "batch_progress" with
  | some (.ref a) =>
    match t.heap.get a with
    | some cell =>
      let h1 := t.heap.set a (dictSet cell "current_task_index" (.int task_index))
      let hInner := allocModeDicts h1 tasks
      let hOuterAlloc := hInner.1.alloc hInner.2
      let hNew := hOuterAlloc.1.alloc [(task_id, .ref hOuterAlloc.2)]
      some (writeMem ts el
        { heap := hNew.1
          top := dictSet t.top "current_tasks" (.ref hNew.2) })
    | _ => none
  | _ => none

/-- `get_state` (lines 260-269): `self.state.copy()` — the shallow copy is
the top-level key-to-value association itself; the refs inside it still
point at the shared cells. -/
def get_state (t : Tracker) : PyDict := t.top

/-- Read `snapshot[k1][k2]` through a heap: what an external holder of a
`get_state` snapshot sees for a nested counter. -/
def readNested (heap : Heap) (d : PyDict) (k1 k2 : String) : Option PyVal :=
  match dictGet d k1 with
  | some (.ref a) =>
    match heap.get a with
    | some cell => dictGet cell k2
    | _ => none
  | _ => none

/-- The key set of the tracker's `current_tasks` dict. -/
def currentTasksKeys (t : Tracker) : Option (List String) :=
  match dictGet t.top "current_tasks" with
  | some (.ref a) => (t.heap.get a).map (fun d => d.map Prod.fst)
  | _ => none

theorem dictGet_dictSet_self (d : PyDict) (k : String) (v : PyVal) :
    dictGet (dictSet d k v) k = some v := by
  induction d with
  | nil => simp [dictSet, dictGet]
  | cons kv rest ih =>
    obtain ⟨k1, v1⟩ := kv
    by_cases h : k1 = k
    · simp [dictSet, dictGet, h]
    · simp [dictSet, dictGet, h, ih]

theorem dictGet_dictSet_ne (d : PyDict) (k1 k2 : String) (v : PyVal) (h : k1 ≠ k2) :
    dictGet (dictSet d k1 v) k2 = dictGet d k2 := by
  induction d with
  | nil => simp [dictSet, dictGet, h]
  | cons kv rest ih =>
    obtain ⟨k0, v0⟩ := kv
    by_cases h0 : k0 = k1 <;> by_cases h2 : k0 = k2 <;>
      simp_all [dictSet, dictGet]

theorem Heap.get_set_self (h : Heap) (a : Nat) (c d : PyDict) (hc : h.get a = some c) :
    (h.set a d).get a = some d := by
  have hi : a < h.cells.length := (List.getElem?_eq_some.mp hc).1
  simp [Heap.set, Heap.get, List.getElem?_set, hi]

theorem Heap.get_alloc_self (h : Heap) (d : PyDict) :
    (h.alloc d).1.get (h.alloc d).2 = some d := by
  simp [Heap.alloc, Heap.get]

theorem writeMem_heap (ts : String) (el : ℤ) (t : Tracker) :
    (writeMem ts el t).heap = t.heap := by
  rw [writeMem]

theorem dictGet_writeMem_top (ts : String) (el : ℤ) (t : Tracker) (k : String)
    (h1 : k ≠ "updated_at") (h2 : k ≠ "elapsed_seconds") :
    dictGet (writeMem ts el t).top k = dictGet t.top k := by
  rw [writeMem]
  dsimp only
  split
  · rw [dictGet_dictSet_ne _ _ _ _ (Ne.symm h2), dictGet_dictSet_ne _ _ _ _ (Ne.symm h1)]
  · rw [dictGet_dictSet_ne _ _ _ _ (Ne.symm h1)]

/-- C9 counterexample: `get_state` is a shallow copy, not an immutable deep
snapshot.  Concretely, on a fresh tracker the snapshot's nested
`batch_progress.completed_tasks` reads 0, and after one `increment_completed`
on the tracker the very same snapshot reads 1 — the previously returned
dictionary's nested record did not stay unchanged. -/
theorem get_state_snapshot_mutates :
    readNested (initTracker "exp" "t0").heap (get_state (initTracker "exp" "t0"))
        "batch_progress" "completed_tasks" = some (.int 0)
    ∧ (increment_completed "t1" 7 (initTracker "exp" "t0")).map
        (fun t1 => readNested t1.heap (get_state (initTracker "exp" "t0"))
          "batch_progress" "completed_tasks") = some (some (.int 1)) := by
  exact ⟨rfl, rfl⟩

/-- C9 (amended): `get_state` returns a shallow copy.  Rebinding a top-level
key of the tracker state is invisible through a previously returned
snapshot, but the nested `batch_progress`, `health`, `data_collected` and
`current_tasks` dicts are shared by reference, so in-place nested mutations
(such as `increment_completed`) are visible through the snapshot.  Stated
generally for `increment_completed`, plus concretely for `start` on a fresh
tracker: the snapshot keeps `status = "pending"` and `started_at = None`
while the tracker itself shows `"running"`, yet the nested
`total_tasks = 4` mutation shows through the snapshot. -/
theorem get_state_shallow_copy (t : Tracker) (ts : String) (el : ℤ) (a : Nat)
    (cell : PyDict) (n : ℤ) (t1 : Tracker)
    (href : dictGet t.top "batch_progress" = some (.ref a))
    (hcell : t.heap.get a = some cell)
    (hn : dictGet cell "completed_tasks" = some (.int n))
    (hinc : increment_completed ts el t = some t1) :
    readNested t1.heap (get_state t) "batch_progress" "completed_tasks" = some (.int (n + 1))
    ∧ (start "t1" "t1" 0 4 (initTracker "exp" "t0")).map
        (fun t2 => (dictGet (get_state (initTracker "exp" "t0")) "status",
                    dictGet (get_state (initTracker "exp" "t0")) "started_at",
                    dictGet t2.top "status",
                    readNested t2.heap (get_state (initTracker "exp" "t0"))
                      "batch_progress" "total_tasks")) =
      some (some (.str "pending"), some .pynone, some (.str "running"),
            some (.int 4)) := by
  constructor
  · rw [increment_completed] at hinc
    simp only [href, hcell, hn, Option.some_inj] at hinc
    subst hinc
    rw [readNested, get_state]
    simp only [href, writeMem_heap,
      Heap.get_set_self t.heap a cell (dictSet cell "completed_tasks" (.int (n + 1))) hcell,
      dictGet_dictSet_self]
  · rfl

/-- Witness for `get_state_shallow_copy` on a fresh tracker. -/
theorem get_state_shallow_copy_witness :
    readNested ((increment_completed "t1" 7 (initTracker "exp" "t0")).getD
        (initTracker "exp" "t0")).heap
      (get_state (initTracker "exp" "t0")) "batch_progress" "completed_tasks" =
      some (.int (0 + 1)) := by
  exact (get_state_shallow_copy (initTracker "exp" "t0") "t1" 7 0 _ 0 _ rfl rfl rfl rfl).1

/-- C10: after any successful `update_current_task(task_index, task_id,
tasks)` call, the tracker's `current_tasks` dict contains exactly the one
key `task_id` — the call rebinds `current_tasks` to a freshly built one-key
dict, discarding every entry previously recorded for other task ids. -/
theorem update_current_task_single_key (ts : String) (el : ℤ) (idx : ℤ)
    (task_id : String) (tasks : List (String × PyDict)) (t t1 : Tracker)
    (h : update_current_task ts el idx task_id tasks t = some t1) :
    currentTasksKeys t1 = some [task_id] := by
  rw [update_current_task] at h
  match hbp : dictGet t.top "batch_progress" with
  | some (.ref a) =>
    simp only [hbp] at h
    match hcell : t.heap.get a with
    | some cell =>
      simp only [hcell, Option.some_inj] at h
      subst h
      rw [currentTasksKeys]
      rw [dictGet_writeMem_top _ _ _ _ (by decide) (by decide)]
      dsimp only
      rw [dictGet_dictSet_self]
      rw [writeMem_heap]
      dsimp only
      rw [Heap.get_alloc_self]
      rfl
    | none =>
      simp only [hcell] at h
      exact absurd h (by simp)
  | some (.str s) => simp only [hbp] at h; exact absurd h (by simp)
  | some (.int n) => simp only [hbp] at h; exact absurd h (by simp)
  | some .pynone => simp only [hbp] at h; exact absurd h (by simp)
  | none => simp only [hbp] at h; exact absurd h (by simp)

/-- Witness for `update_current_task_single_key` on a fresh tracker: after
recording task `"task_0001"`, the per-task progress map holds exactly that
key. -/
theorem update_current_task_single_key_witness :
    currentTasksKeys ((update_current_task "t1" 0 0 "task_0001"
        [("long", [("phase", .str "pending")])] (initTracker "exp" "t0")).getD
          (initTracker "exp" "t0")) = some ["task_0001"] := by
  exact update_current_task_single_key "t1" 0 0 "task_0001"
    [("long", [("phase", .str "pending")])] (initTracker "exp" "t0") _ rfl

/-! ## Lock/flush discipline of the StatusTracker (`state.py`).

Each mutator method acquires `self.lock`, mutates `self.state`, releases the
lock, and only then calls `self._write()`, which re-acquires the lock,
re-timestamps, dumps the state to `status.tmp` and renames it over
`status.json` (lines 106-121).  That control flow is captured as a sequence
of atomic events per mutator call, read off the source. -/

inductive LockEv where
  | acquire : LockEv
  | release : LockEv
  | mutate : String → LockEv
  | writeTmp : LockEv
  | renameOver : LockEv
deriving DecidableEq

/-- A `with self.lock:` block. -/
def withLock (body : List LockEv) : List LockEv := [.acquire] ++ body ++ [.release]

/-- `_write` (lines 106-121): under the lock, re-timestamp `updated_at` (and
`elapsed_seconds` when the experiment has started — included here), dump to
the `.tmp` file, rename it over `status.json`. -/
def writeTrace : List LockEv :=
  withLock [.mutate "updated_at", .mutate "elapsed_seconds", .writeTmp, .renameOver]

/-- `start` (lines 123-135). -/
def startTrace : List LockEv :=
  withLock [.mutate "status", .mutate "started_at", .mutate "total_tasks"] ++ writeTrace

/-- `complete` (lines 137-142). -/
def completeTrace : List LockEv :=
  withLock [.mutate "status", .mutate "completed_at"] ++ writeTrace

/-- `fail` (lines 144-156). -/
def failTrace : List LockEv :=
  withLock [.mutate "status", .mutate "error", .mutate "completed_at"] ++ writeTrace

/-- `update_current_task` (lines 158-178). -/
def update_current_taskTrace : List LockEv :=
  withLock [.mutate "current_task_index", .mutate "current_tasks"] ++ writeTrace

/-- `update_task_progress` (lines 180-217); its guarded in-place updates are
one mutation of the matched `current_tasks` entry. -/
def update_task_progressTrace : List LockEv :=
  withLock [.mutate "current_tasks_entry"] ++ writeTrace

/-- `increment_completed` (lines 219-223). -/
def increment_completedTrace : List LockEv :=
  withLock [.mutate "completed_tasks"] ++ writeTrace

/-- `increment_failed` (lines 225-229). -/
def increment_failedTrace : List LockEv :=
  withLock [.mutate "failed_tasks"] ++ writeTrace

/-- `increment_health` (lines 231-244). -/
def increment_healthTrace : List LockEv :=
  withLock [.mutate "health_metric"] ++ writeTrace

/-- `update_data_collected` (lines 246-258). -/
def update_data_collectedTrace : List LockEv :=
  withLock [.mutate "data_collected"] ++ writeTrace

/-- Every mutator call trace of the StatusTracker. -/
def mutatorTraces : List (List LockEv) :=
  [startTrace, completeTrace, failTrace, update_current_taskTrace,
   update_task_progressTrace, increment_completedTrace, increment_failedTrace,
   increment_healthTrace, update_data_collectedTrace]

/-- The claimed discipline: at every lock release, every mutation performed
since the last flush has already been renamed into the canonical snapshot.
The accumulator records whether an unflushed mutation is pending. -/
def flushedBeforeReleaseAux : Bool → List LockEv → Bool
  | pending, [] => !pending
  | pending, e :: rest =>
    match e with
    | .mutate _ => flushedBeforeReleaseAux true rest
    | .renameOver => flushedBeforeReleaseAux false rest
    | .release => !pending && flushedBeforeReleaseAux false rest
    | _ => flushedBeforeReleaseAux pending rest

def flushedBeforeRelease (t : List LockEv) : Bool := flushedBeforeReleaseAux false t

/-- Every mutation is eventually flushed (a rename follows it) before the
mutator call returns (end of trace). -/
def flushedByReturn : List LockEv → Bool
  | [] => true
  | .mutate _ :: rest => rest.any (fun e => e == .renameOver) && flushedByReturn rest
  | _ :: rest => flushedByReturn rest

/-- Mutations and snapshot writes happen only while the lock is held. -/
def underLockAux : Nat → List LockEv → Bool
  | _, [] => true
  | d, .acquire :: rest => underLockAux (d + 1) rest
  | d, .release :: rest => decide (d ≠ 0) && underLockAux (d - 1) rest
  | d, .writeTmp :: rest => decide (d ≠ 0) && underLockAux d rest
  | d, .renameOver :: rest => decide (d ≠ 0) && underLockAux d rest
  | d, .mutate _ :: rest => decide (d ≠ 0) && underLockAux d rest

def underLock (t : List LockEv) : Bool := underLockAux 0 t

/-- Replace-on-write: every dump goes to the temporary file and is
immediately renamed over the canonical path (never a direct write, never a
rename without a fresh dump). -/
def tmpThenRename : List LockEv → Bool
  | [] => true
  | .writeTmp :: .renameOver :: rest => tmpThenRename rest
  | .writeTmp :: _ => false
  | .renameOver :: _ => false
  | _ :: rest => tmpThenRename rest

/-- C4 counterexample: the mutators release the lock before `_write` runs,
so the mutation is NOT flushed to the durable snapshot before the tracker's
lock is released — shown on `increment_completed` and on `start`. -/
theorem mutation_not_flushed_before_release :
    flushedBeforeRelease increment_completedTrace = false
    ∧ flushedBeforeRelease startTrace = false := by
  exact ⟨rfl, rfl⟩

/-- C4 (amended): each StatusTracker mutator flushes its mutation before the
mutating call returns — under a second acquisition of the lock inside
`_write`, not before the first release — and the flush follows the
replace-on-write discipline: the state is dumped to a temporary file and
renamed over the canonical path, with every mutation, dump and rename
performed while holding the lock. -/
theorem mutation_flushed_before_return (t : List LockEv) (h : t ∈ mutatorTraces) :
    flushedByReturn t = true ∧ underLock t = true ∧ tmpThenRename t = true := by
  fin_cases h <;> exact ⟨rfl, rfl, rfl⟩

/-- Witness for `mutation_flushed_before_return` at the `start` trace. -/
theorem mutation_flushed_before_return_witness :
    flushedByReturn startTrace = true ∧ underLock startTrace = true
    ∧ tmpThenRename startTrace = true := by
  exact mutation_flushed_before_return startTrace (by decide)

/-! ## Batch supervisor (`batch.py`) and teardown (`core.py` lines 299-368).

`BatchRunner._execute_task` (lines 92-200) drives one attempt; its control
flow per attempt outcome is modelled as the ordered list of calls it makes
into the StatusTracker / Result Store, plus every invocation of
`auditor.CleanUp`.  Note `CleanUp` begins with `assert self.initialized`
(core.py line 307): on the training- and collection-failure branches the
`try` body already called `CleanUp(kill=True)` and then `return None`
reaches the `finally`, whose second `CleanUp(kill=True)` call fails that
assert and raises `AssertionError` out of `_execute_task` — the `except`
clause does not cover the `finally` block. -/

/-- Driver/session flags relevant to `CleanUp` (`core.py`): `initialized`,
whether `self.driver` is non-`None`, and `logged_in`. -/
structure Auditor where
  initialized : Bool
  hasDriver : Bool
  logged_in : Bool
deriving DecidableEq

/-- `CleanUp` (core.py lines 299-360): asserts `initialized` (raises
`AssertionError` otherwise — modelled as `.error`); its tab/history blocks
swallow their own errors; `kill=True` quits and drops the driver,
`kill=False` clears cookies/history and logs out; finally
`initialized = False`. -/
def CleanUp (kill : Bool) (a : Auditor) : Except String Auditor :=
  if a.initialized = false then .error "Driver is not initialized"
  else .ok { initialized := false,
             hasDriver := if a.hasDriver && kill then false else a.hasDriver,
             logged_in := if kill then a.logged_in else false }

/-- `__del__` / `__exit__` (core.py lines 362-368): call `CleanUp` only when
`initialized` — the guarded last-resort path. -/
def dunderDel (a : Auditor) : Except String Auditor :=
  if a.initialized then CleanUp true a else .ok a

/-- How one `_execute_task` attempt plays out, abstracting the audit session:
driver init failed (`InitDriver` returned `True`); `Train` returned `True`;
`Run` returned `-1`; an exception escaped the `try` body; or the session
completed and `Report()` succeeded. -/
inductive AttemptOutcome where
  | initFail : AttemptOutcome
  | trainFail : AttemptOutcome
  | runFail : AttemptOutcome
  | bodyRaise : AttemptOutcome
  | success : AttemptOutcome
deriving DecidableEq

/-- Calls `_execute_task` / the wave loop make, in order. -/
inductive TaskEffect where
  | incrementFailed : TaskEffect
  | incrementCompleted : TaskEffect
  | incrementHealth : String → TaskEffect
  | updateDataCollected : TaskEffect
  | updateCurrentTask : TaskEffect
  | cleanUpCall : TaskEffect
  | saveResult : TaskEffect
deriving DecidableEq

/-- Whether `_execute_task` returned (with a result or `None`) or raised. -/
inductive ExecOutcome where
  | returned : Bool → ExecOutcome
  | raised : ExecOutcome
deriving DecidableEq

/-- `_execute_task` (batch.py lines 92-200): per attempt outcome, its return
behaviour and the ordered calls it makes.  `initFail` returns `None` before
the `try` (line 145), so no tracker calls and no `CleanUp`.  `trainFail` /
`runFail` run lines 162-165 / 170-174 (fail counters, in-body `CleanUp`),
then the `finally`'s second `CleanUp` raises.  `bodyRaise` is caught by the
`except` (lines 192-197) and the `finally`'s single `CleanUp` succeeds.
`success` runs lines 177-190 then the `finally`'s `CleanUp`. -/
def execute_task : AttemptOutcome → ExecOutcome × List TaskEffect
  | .initFail => (.returned false, [])
  | .trainFail =>
    (.raised, [.updateCurrentTask, .incrementFailed, .incrementHealth "failed_runs",
               .cleanUpCall, .cleanUpCall])
  | .runFail =>
    (.raised, [.updateCurrentTask, .incrementFailed, .incrementHealth "failed_runs",
               .cleanUpCall, .cleanUpCall])
  | .bodyRaise =>
    (.returned false, [.updateCurrentTask, .incrementFailed,
                       .incrementHealth "failed_runs", .cleanUpCall])
  | .success =>
    (.returned true, [.updateCurrentTask, .incrementCompleted,
                      .incrementHealth "successful_runs", .updateDataCollected,
                      .cleanUpCall])

/-- `_execute_task_with_retry` (batch.py lines 202-228): up to `max_retries`
attempts; attempts after the first record a retry health metric first; a
non-`None` result returns immediately; an exception propagates immediately
(aborting the remaining retries).  Fuel = remaining range iterations,
`attempt` = current index; an exhausted outcome trace behaves as an
exhausted range (theorems always supply one outcome per attempt). -/
def retryLoop : Nat → Nat → List AttemptOutcome → ExecOutcome × List TaskEffect
  | 0, _, _ => (.returned false, [])
  | _ + 1, _, [] => (.returned false, [])
  | n + 1, attempt, o :: rest =>
    let pre : List TaskEffect :=
      if attempt = 0 then [] else [.incrementHealth "retries"]
    let e := execute_task o
    match e.1 with
    | .raised => (.raised, pre ++ e.2)
    | .returned true => (.returned true, pre ++ e.2)
    | .returned false =>
      let r := retryLoop n (attempt + 1) rest
      (r.1, pre ++ e.2 ++ r.2)

def execute_task_with_retry (maxRetries : Nat) (outcomes : List AttemptOutcome) :
    ExecOutcome × List TaskEffect :=
  retryLoop maxRetries 0 outcomes

/-- The wave loop around `future.result()` (batch.py lines 256-276): a raised
exception is logged (no save); a non-`None` result is handed to
`storage.save_result`; a `None` result is recorded without saving. -/
def superviseTask (maxRetries : Nat) (outcomes : List AttemptOutcome) : List TaskEffect :=
  let r := execute_task_with_retry maxRetries outcomes
  match r.1 with
  | .returned true => r.2 ++ [.saveResult]
  | _ => r.2

theorem execute_task_no_save (o : AttemptOutcome) :
    ((execute_task o).2).count TaskEffect.saveResult = 0 := by
  cases o <;> rfl

theorem retryLoop_no_save (n k : Nat) (outcomes : List AttemptOutcome) :
    ((retryLoop n k outcomes).2).count TaskEffect.saveResult = 0 := by
  induction n generalizing k outcomes with
  | zero => rfl
  | succ m ih =>
    cases outcomes with
    | nil => rfl
    | cons o rest =>
      rw [retryLoop]
      cases o <;>
        simp [execute_task, List.count_append, List.count_cons, ih] <;>
        split <;> simp

theorem retryLoop_not_success (n k : Nat) (outcomes : List AttemptOutcome)
    (h : ∀ o ∈ outcomes, o ≠ AttemptOutcome.success) :
    (retryLoop n k outcomes).1 ≠ ExecOutcome.returned true := by
  induction n generalizing k outcomes with
  | zero => simp [retryLoop]
  | succ m ih =>
    cases outcomes with
    | nil => simp [retryLoop]
    | cons o rest =>
      have hrest : ∀ x ∈ rest, x ≠ AttemptOutcome.success :=
        fun x hx => h x (List.mem_cons_of_mem o hx)
      rw [retryLoop]
      cases o with
      | success => exact absurd rfl (h AttemptOutcome.success (List.mem_cons_self _ rest))
      | initFail => simpa [execute_task] using ih (k + 1) rest hrest
      | bodyRaise => simpa [execute_task] using ih (k + 1) rest hrest
      | trainFail => simp [execute_task]
      | runFail => simp [execute_task]

/-- C1 counterexample: a task whose 3 attempts all fail at driver init makes
ZERO `increment_failed` calls, and one whose 3 attempts all fail by an
in-session exception makes THREE — never "exactly one" per abandoned task;
(the zero-`save_result` half of the claim does hold, here checked on the
init-failure trace). -/
theorem retry_counters_counterexample :
    (superviseTask 3 [.initFail, .initFail, .initFail]).count TaskEffect.incrementFailed = 0
    ∧ (superviseTask 3 [.bodyRaise, .bodyRaise, .bodyRaise]).count TaskEffect.incrementFailed = 3
    ∧ (superviseTask 3 [.initFail, .initFail, .initFail]).count TaskEffect.saveResult = 0 := by
  exact ⟨rfl, rfl, rfl⟩

/-- C1 (amended): a task with no successful attempt never triggers
`save_result`; but terminal counters are per attempt, not per terminal
outcome: `increment_failed` is called once per failed attempt that got past
driver init (0 for init failures, 3 for three in-session exceptions), and a
training/collection failure makes one call and then aborts the remaining
retries because the duplicated `CleanUp` in the `finally` raises.  A task
with a successful attempt is persisted exactly once and increments the
completed counter exactly once. -/
theorem retry_counters_amended (outcomes : List AttemptOutcome) (R : Nat)
    (hfail : ∀ o ∈ outcomes, o ≠ AttemptOutcome.success) :
    (superviseTask R outcomes).count TaskEffect.saveResult = 0
    ∧ (superviseTask 3 [.initFail, .initFail, .initFail]).count TaskEffect.incrementFailed = 0
    ∧ (superviseTask 3 [.bodyRaise, .bodyRaise, .bodyRaise]).count TaskEffect.incrementFailed = 3
    ∧ (execute_task_with_retry 3 [.trainFail]).1 = ExecOutcome.raised
    ∧ (superviseTask 3 [.trainFail]).count TaskEffect.incrementFailed = 1
    ∧ (superviseTask 3 [.bodyRaise, .success]).count TaskEffect.saveResult = 1
    ∧ (superviseTask 3 [.bodyRaise, .success]).count TaskEffect.incrementCompleted = 1 := by
  refine ⟨?_, rfl, rfl, rfl, rfl, rfl, rfl⟩
  rw [superviseTask, execute_task_with_retry]
  split
  · next heq => exact absurd heq (retryLoop_not_success R 0 outcomes hfail)
  · exact retryLoop_no_save R 0 outcomes

/-- Witness for `retry_counters_amended` at the all-init-failure trace. -/
theorem retry_counters_amended_witness :
    (superviseTask 3 [.initFail, .initFail, .initFail]).count TaskEffect.saveResult = 0 := by
  exact (retry_counters_amended [.initFail, .initFail, .initFail] 3 (by decide)).1

/-- C5 counterexample: `CleanUp` is not idempotent — invoked again after it
has run it fails the `initialized` assertion and raises — and it is not
invoked exactly once per session either: the training-failure path of
`_execute_task` invokes it twice, the driver-init-failure path zero times. -/
theorem cleanup_exactly_once_counterexample :
    CleanUp true { initialized := true, hasDriver := true, logged_in := false } =
      .ok { initialized := false, hasDriver := false, logged_in := false }
    ∧ CleanUp true { initialized := false, hasDriver := false, logged_in := false } =
      .error "Driver is not initialized"
    ∧ (execute_task .trainFail).2.count TaskEffect.cleanUpCall = 2
    ∧ (execute_task .initFail).2.count TaskEffect.cleanUpCall = 0 := by
  exact ⟨rfl, rfl, rfl, rfl⟩

/-- C5 (amended): from an initialized session, `CleanUp(kill=True)`
deinitializes and releases the driver; any further direct `CleanUp` call on
a deinitialized session raises the `initialized` assertion (teardown is NOT
idempotent); only the guarded destructor/`__exit__` path is safe to re-run.
`_execute_task` invokes `CleanUp` once on the success and in-body-exception
paths, twice on the training/collection-failure paths (the second raising),
and never on driver-init failure. -/
theorem cleanup_deinit_not_idempotent (a : Auditor) (h : a.initialized = true) :
    CleanUp true a = .ok { initialized := false, hasDriver := false, logged_in := a.logged_in }
    ∧ (∀ (kill : Bool) (b : Auditor), b.initialized = false →
        CleanUp kill b = .error "Driver is not initialized")
    ∧ (∀ b : Auditor, b.initialized = false → dunderDel b = .ok b)
    ∧ (execute_task .success).2.count TaskEffect.cleanUpCall = 1
    ∧ (execute_task .bodyRaise).2.count TaskEffect.cleanUpCall = 1
    ∧ (execute_task .trainFail).2.count TaskEffect.cleanUpCall = 2
    ∧ (execute_task .runFail).2.count TaskEffect.cleanUpCall = 2
    ∧ (execute_task .initFail).2.count TaskEffect.cleanUpCall = 0 := by
  refine ⟨?_, ?_, ?_, rfl, rfl, rfl, rfl, rfl⟩
  · cases hD : a.hasDriver <;> simp [CleanUp, h, hD]
  · intro kill b hb
    simp [CleanUp, hb]
  · intro b hb
    simp [dunderDel, hb]

/-- Witness for `cleanup_deinit_not_idempotent` at a concrete live session. -/
theorem cleanup_deinit_not_idempotent_witness :
    CleanUp true { initialized := true, hasDriver := true, logged_in := false } =
      .ok { initialized := false, hasDriver := false, logged_in := false } := by
  exact (cleanup_deinit_not_idempotent
    { initialized := true, hasDriver := true, logged_in := false } rfl).1
